import Mathlib

/-!
Verification development for the crusty compiler (margosulja/crusty).

The Rust sources under src/ (lexer.rs, ast.rs, parser.rs, codegen.rs) are
shallowly embedded below.  Design notes on the embedding:

* The Rust lexer walks the source string one character at a time through an
  iterator plus a position index that always denote the same character; the
  embedding keeps the not-yet-consumed characters as a list (field rest),
  together with the line/column counters.  The advance method updates
  line/column by looking at the character at the NEW position, exactly as the
  source does (the documented off-by-one quirk).
* TokenType in lexer.rs has no Return variant, even though parser.rs matches
  on TokenType::Return in parse_stmt and parse_return_stmt (so the crate does
  not even typecheck as committed).  The embedding declares the Return
  variant so that the parser code is expressible, and - faithfully to
  lexer.rs - maps no keyword to it: the keyword table contains only int,
  char and char*.
* Lexer::next (the Option wrapper over next_token) drops the error of
  next_token and returns None; the parser treats a None current token like
  EOF and never pulls past it.  tokenize therefore materialises the token
  stream as the list of tokens up to and including the first EOF token,
  ending early (without an EOF token) when next_token fails.  The fuel of
  the driver loop is source length + 1, which can never be exhausted since
  every produced token consumes at least one character.
* Rust f64 numeric literals are modelled as Int: in this language subset a
  literal is a digit run (the spec notes literals always hold integral
  values), Display of an integral f64 agrees with Int.repr, and the casts
  n as i32 / n as i64 are modelled by their saturating behaviour.
* Rust HashMaps are modelled as association lists with overwriting insert;
  the code never iterates a map, so only insert/get/contains are modelled.
* The isize indentation field of CodeGen is dead code (inc_indent is never
  called, so the indent is always empty); it is omitted and emit_line
  appends its argument plus a newline directly.
* The parser and the statement code generator are recursive through
  expression nesting / function bodies; both are embedded with an explicit
  fuel parameter that is decremented on every call.  Entry points supply a
  fuel that dominates the recursion depth (for the code generator sizeOf of
  the statement list; for the parser a multiple of the source length), so
  the out-of-fuel branch is unreachable on every input considered here.
* char::is_whitespace / is_numeric are Unicode classifiers in Rust; the
  embedding covers their ASCII and Latin-1 portions, which is exhaustive for
  the ASCII programs all claims are about.
-/

/-! ## Token model (src/lexer.rs) -/

/-- Token kinds of lexer.rs.  The Return variant is absent from the Rust
enum; it is declared here because parser.rs pattern-matches on
TokenType::Return (see the module comment). -/
inductive TokenType where
  | Identifier
  | Number
  | String
  | Equals
  | DataType
  | Colon
  | Semi
  | Add
  | Sub
  | Mul
  | Div
  | LParen
  | RParen
  | LBrace
  | RBrace
  | Comma
  | Return
  | EOF
deriving Repr, DecidableEq

structure Token where
  token_type : TokenType
  lexeme : String
  line : Nat
  column : Nat
deriving Repr, DecidableEq

/-! ## AST model (src/ast.rs) -/

inductive Binop where
  | Add
  | Sub
  | Mul
  | Div
deriving Repr, DecidableEq

inductive Expr where
  | Identifier (name : String)
  | Number (value : Int)
  | String (value : String)
  | BinaryOp (left : Expr) (op : Binop) (right : Expr)
  | FunctionCall (callee : String) (args : List Expr)
deriving Repr

structure Parameter where
  data_type : String
  name : String
deriving Repr, DecidableEq

/-- Statements.  The record payloads of ast.rs (VariableDecl, FunctionDecl,
Return) are inlined as constructor fields, keeping their field order. -/
inductive Stmt where
  | Expression (e : Expr)
  | VariableDecl (data_type : String) (name : String) (value : Expr)
  | FunctionDecl (data_type : String) (name : String) (body : List Stmt)
      (params : List Parameter)
  | Return (value : Expr)
deriving Repr

/-- Binop::precedence. -/
def Binop.precedence : Binop → Nat
  | .Add | .Sub => 1
  | .Mul | .Div => 2

/-- Binop::is_left_linked (constantly true in the source). -/
def Binop.is_left_linked : Binop → Bool :=
  fun _ => true

/-! ## Lexer (src/lexer.rs) -/

structure Lexer where
  rest : List Char
  line : Nat
  column : Nat
deriving Repr

def Lexer.new (source : String) : Lexer :=
  { rest := source.toList, line := 1, column := 1 }

/-- Rust char::is_whitespace restricted to its ASCII / Latin-1 portion
(space, tab, newline, carriage return, vertical tab, form feed, next line,
no-break space). -/
def rustIsWhitespace (c : Char) : Bool :=
  c = ' ' || c = '\t' || c = '\n' || c = '\r' || c = '\x0b' || c = '\x0c' ||
    c = '\u0085' || c = '\u00A0'

/-- Lexer::advance: step to the next character; line/column are updated by
inspecting the character at the NEW position (the off-by-one quirk kept by
the spec). -/
def Lexer.advance (l : Lexer) : Lexer :=
  { rest := l.rest.tail,
    line := if l.rest.tail.head? = some '\n' then l.line + 1 else l.line,
    column := if l.rest.tail.head? = some '\n' then 1 else l.column + 1 }

/-- Lexer::make. -/
def Lexer.make (l : Lexer) (token_type : TokenType) (lexeme : String) : Token :=
  { token_type := token_type, lexeme := lexeme, line := l.line, column := l.column }

/-- Lexer::skip_whitespace.  All lexer loops take a fuel argument so that
the recursion is structural (the out-of-fuel branch behaves like the loop
exit); every iteration consumes one character, so the rest-length + 1 fuel
the callers pass can never be exhausted. -/
def skipWhitespaceF : Nat → Lexer → Lexer
  | 0, l => l
  | fuel + 1, l =>
    match l.rest with
    | [] => l
    | c :: _ =>
      if rustIsWhitespace c then skipWhitespaceF fuel (Lexer.advance l) else l

def skipWhitespace (l : Lexer) : Lexer :=
  skipWhitespaceF (l.rest.length + 1) l

/-- The while-loop inside Lexer::skip_comment: advance until a newline (the
newline itself is not consumed) or end of input. -/
def skipCommentLoopF : Nat → Lexer → Lexer
  | 0, l => l
  | fuel + 1, l =>
    match l.rest with
    | [] => l
    | c :: _ =>
      if c = '\n' then l else skipCommentLoopF fuel (Lexer.advance l)

/-- Lexer::skip_comment. -/
def skipComment (l : Lexer) : Lexer :=
  if l.rest.head? = some '-' && l.rest.tail.head? = some '-' then
    skipCommentLoopF (l.rest.length + 1) l
  else
    l

/-- The character produced for one escape inside a string literal
(an unrecognized escape passes the backslash and the character through). -/
def escResult (acc : String) (c : Char) : String :=
  match c with
  | 'n' => acc.push '\n'
  | 't' => acc.push '\t'
  | 'r' => acc.push '\r'
  | '\\' => acc.push '\\'
  | '\'' => acc.push '\''
  | '"' => acc.push '"'
  | '0' => acc.push '\x00'
  | other => (acc.push '\\').push other

/-- The while-loop of Lexer::process_string: q is the opening quote; the
lexer has already advanced past it. -/
def processStringLoopF : Nat → Char → String → Lexer →
    Except String (String × Lexer)
  | 0, _, _, _ => .error "Unterminated string literal"
  | fuel + 1, q, acc, l =>
    match l.rest with
    | [] => .error "Unterminated string literal"
    | c :: _ =>
      if c = q then
        .ok (acc, Lexer.advance l)
      else if c = '\\' then
        match (Lexer.advance l).rest.head? with
        | some e =>
          processStringLoopF fuel q (escResult acc e)
            (Lexer.advance (Lexer.advance l))
        | none => .error "Unterminated string literal"
      else
        processStringLoopF fuel q (acc.push c) (Lexer.advance l)

/-- Lexer::process_string (called with the current character being the
opening quote). -/
def processString (l : Lexer) : Except String (String × Lexer) :=
  match l.rest.head? with
  | some q => processStringLoopF (l.rest.length + 1) q "" (Lexer.advance l)
  | none => .error "Unterminated string literal"

/-- Lexer::process_numeric (is_numeric is modelled by its ASCII digits). -/
def processNumericF : Nat → String → Bool → Lexer → String × Lexer
  | 0, acc, _, l => (acc, l)
  | fuel + 1, acc, floating, l =>
    match l.rest with
    | [] => (acc, l)
    | c :: _ =>
      if c.isDigit then
        processNumericF fuel (acc.push c) floating (Lexer.advance l)
      else if c = '.' && !floating &&
          (match l.rest.tail.head? with
           | some n => n.isDigit
           | none => false) then
        processNumericF fuel (acc.push c) true (Lexer.advance l)
      else
        (acc, l)

/-- Lexer::process_identifier: a maximal run of ASCII alphanumerics,
underscores or stars. -/
def processIdentifierF : Nat → String → Lexer → String × Lexer
  | 0, acc, l => (acc, l)
  | fuel + 1, acc, l =>
    match l.rest with
    | [] => (acc, l)
    | c :: _ =>
      if c.isAlphanum || c = '_' || c = '*' then
        processIdentifierF fuel (acc.push c) (Lexer.advance l)
      else
        (acc, l)

/-- The keyword table built in Lexer::new: int, char and char* map to
DataType; nothing else is a keyword (in particular the word return is not,
see the module comment). -/
def keywordLookup (s : String) : TokenType :=
  if s = "int" || s = "char" || s = "char*" then .DataType else .Identifier

/-- Lexer::next_token.  The fuel bounds the number of comment skips (the
loop re-runs only after a comment, which consumes at least one character,
so rest length + 1 retries can never be exhausted). -/
def nextTokenF : Nat → Lexer → Except String (Token × Lexer)
  | 0, _ => .error "comment fuel exhausted"
  | fuel + 1, l0 =>
    let l := skipWhitespace l0
    match l.rest.head? with
    | none => .ok (l.make .EOF "", l)
    | some ch =>
      if ch = '-' && l.rest.tail.head? = some '-' then
        nextTokenF fuel (skipComment l)
      else if ch = '"' || ch = '\'' then
        match processString l with
        | .ok (value, l2) => .ok (l2.make .String value, l2)
        | .error e => .error e
      else if ch.isDigit then
        let (value, l2) := processNumericF (l.rest.length + 1) "" false l
        .ok (l2.make .Number value, l2)
      else if ch.isAlpha || ch = '_' then
        let (value, l2) := processIdentifierF (l.rest.length + 1) "" l
        .ok (l2.make (keywordLookup value) value, l2)
      else if ch = '=' then
        let l2 := l.advance
        .ok (l2.make .Equals (String.singleton ch), l2)
      else if ch = ';' then
        let l2 := l.advance
        .ok (l2.make .Semi (String.singleton ch), l2)
      else if ch = ':' then
        let l2 := l.advance
        .ok (l2.make .Colon (String.singleton ch), l2)
      else if ch = ',' then
        let l2 := l.advance
        .ok (l2.make .Comma (String.singleton ch), l2)
      else if ch = '+' then
        let l2 := l.advance
        .ok (l2.make .Add (String.singleton ch), l2)
      else if ch = '-' then
        let l2 := l.advance
        .ok (l2.make .Sub (String.singleton ch), l2)
      else if ch = '/' then
        let l2 := l.advance
        .ok (l2.make .Div (String.singleton ch), l2)
      else if ch = '*' then
        let l2 := l.advance
        .ok (l2.make .Mul (String.singleton ch), l2)
      else if ch = '(' then
        let l2 := l.advance
        .ok (l2.make .LParen (String.singleton ch), l2)
      else if ch = ')' then
        let l2 := l.advance
        .ok (l2.make .RParen (String.singleton ch), l2)
      else if ch = '\x7b' then
        let l2 := l.advance
        .ok (l2.make .LBrace (String.singleton ch), l2)
      else if ch = '\x7d' then
        let l2 := l.advance
        .ok (l2.make .RBrace (String.singleton ch), l2)
      else
        .error ("[twee::error] unknown character '" ++ String.singleton ch ++ "'")

/-- Lexer::next_token with its never-exhausted comment fuel. -/
def lexNextToken (l : Lexer) : Except String (Token × Lexer) :=
  nextTokenF (l.rest.length + 1) l

/-- Lexer::next: the Option wrapper that DROPS the error of next_token and
returns None (the commented-out error-token line in the source was never
finished).  The post-error lexer state is never observed by the parser, so
the pre-call state is returned in the error case. -/
def lexNext (l : Lexer) : Option Token × Lexer :=
  match lexNextToken l with
  | .ok (t, l2) => (some t, l2)
  | .error _ => (none, l)

/-- The token stream a parser would pull: all tokens up to and including the
first EOF token; a swallowed lexical error ends the stream without an EOF
token (the parser treats the missing token like EOF, see Parser.check). -/
def lexAllF : Nat → Lexer → List Token
  | 0, _ => []
  | fuel + 1, l =>
    match lexNext l with
    | (none, _) => []
    | (some t, l2) =>
      if t.token_type = .EOF then [t] else t :: lexAllF fuel l2

def tokenize (source : String) : List Token :=
  lexAllF (source.length + 1) (Lexer.new source)

/-! ## Parser (src/parser.rs) -/

/-- Parser state: the cached current token plus the tokens still to be
pulled from the lexer (see the module comment for why a materialised list
is observationally faithful). -/
structure Parser where
  current : Option Token
  toks : List Token
deriving Repr

def Parser.new (ts : List Token) : Parser :=
  { current := ts.head?, toks := ts.tail }

/-- Parser::advance. -/
def Parser.adv (p : Parser) : Parser :=
  { current := p.toks.head?, toks := p.toks.tail }

/-- Parser::check: a missing current token only matches EOF. -/
def Parser.check (p : Parser) (target_type : TokenType) : Bool :=
  match p.current with
  | some token => token.token_type = target_type
  | none => target_type = .EOF

/-- Debug formatting of a token kind, as Rust derives it. -/
def ttDebug : TokenType → String
  | .Identifier => "Identifier"
  | .Number => "Number"
  | .String => "String"
  | .Equals => "Equals"
  | .DataType => "DataType"
  | .Colon => "Colon"
  | .Semi => "Semi"
  | .Add => "Add"
  | .Sub => "Sub"
  | .Mul => "Mul"
  | .Div => "Div"
  | .LParen => "LParen"
  | .RParen => "RParen"
  | .LBrace => "LBrace"
  | .RBrace => "RBrace"
  | .Comma => "Comma"
  | .Return => "Return"
  | .EOF => "EOF"

/-- Debug formatting of the optional current token kind. -/
def optTTDebug : Option Token → String
  | none => "None"
  | some t => "Some(" ++ ttDebug t.token_type ++ ")"

/-- Parser::consume. -/
def Parser.consume (p : Parser) (expected : TokenType) :
    Except String (Token × Parser) :=
  if p.check expected then
    match p.current with
    | some token => .ok (token, p.adv)
    | none => .error "[twee::error] unexpected end of input"
  else
    .error ("[twee::error] expected " ++ ttDebug expected ++ " but got " ++
      optTTDebug p.current)

/-- Parser::binop. -/
def Parser.binop (p : Parser) : Option Binop :=
  match p.current with
  | some tok =>
    match tok.token_type with
    | .Add => some .Add
    | .Sub => some .Sub
    | .Mul => some .Mul
    | .Div => some .Div
    | _ => none
  | none => none

/-- Digit-run to number conversion (the integral fragment of
str::parse::<f64>). -/
def digitsToNat : List Char → Nat → Option Nat
  | [], acc => some acc
  | c :: rest, acc =>
    if c.isDigit then digitsToNat rest (acc * 10 + (c.toNat - 48)) else none

/-- Modelling of str::parse::<f64> on a numeric lexeme, restricted to the
integral literals of this subset (see the module comment); Rust reports a
failed parse as the message "invalid float literal". -/
def parseNumericLexeme (s : String) : Except String Int :=
  match s.toList with
  | [] => .error "invalid float literal"
  | ds =>
    match digitsToNat ds 0 with
    | some n => .ok (Int.ofNat n)
    | none => .error "invalid float literal"

mutual

/-- Parser::parse_stmt.  Every parser function takes a fuel argument that
is decremented on every (mutual) recursive call; the out-of-fuel branch is
unreachable whenever the fuel dominates the number of nested calls. -/
def parseStmt : Nat → Parser → Except String (Stmt × Parser)
  | 0, _ => .error "parser fuel exhausted"
  | fuel + 1, p => do
    let (stmt, p) ← (
      match p.current with
      | some token =>
        match token.token_type with
        | .DataType => parseVariableDeclaration fuel p
        | .Return => parseReturnStmt fuel p
        | _ => do
          let (e, p) ← parseExpr fuel p
          .ok (Stmt.Expression e, p)
      | none => .error "[twee::error] unexpected end of input")
    let p := if p.check .Semi then p.adv else p
    .ok (stmt, p)

/-- Parser::parse_return_stmt. -/
def parseReturnStmt : Nat → Parser → Except String (Stmt × Parser)
  | 0, _ => .error "parser fuel exhausted"
  | fuel + 1, p => do
    let (_, p) ← p.consume .Return
    let (value, p) ← parseExpr fuel p
    .ok (Stmt.Return value, p)

/-- Parser::parse_variable_declaration. -/
def parseVariableDeclaration : Nat → Parser → Except String (Stmt × Parser)
  | 0, _ => .error "parser fuel exhausted"
  | fuel + 1, p => do
    let (data_type, p) ←
      (if p.check .DataType then do
        let (t, p) ← p.consume .DataType
        Except.ok (t.lexeme, p)
      else
        Except.ok ("auto", p))
    let (nameTok, p) ← p.consume .Identifier
    if p.check .LParen then
      parseFunctionDeclaration fuel p data_type nameTok.lexeme
    else do
      let (_, p) ← p.consume .Equals
      let (value, p) ← parseExpr fuel p
      .ok (Stmt.VariableDecl data_type nameTok.lexeme value, p)

/-- Parser::parse_function_declaration (after the type and name have been
consumed). -/
def parseFunctionDeclaration : Nat → Parser → String → String →
    Except String (Stmt × Parser)
  | 0, _, _, _ => .error "parser fuel exhausted"
  | fuel + 1, p, data_type, name => do
    let (_, p) ← p.consume .LParen
    let (params, p) ←
      (if p.check .RParen then
        Except.ok (([] : List Parameter), p.adv)
      else
        parseParamsLoop fuel p [])
    let (_, p) ← p.consume .LBrace
    let (body, p) ← parseBodyLoop fuel p []
    let (_, p) ← p.consume .RBrace
    .ok (Stmt.FunctionDecl data_type name body params, p)

/-- The parameter-list loop of parse_function_declaration. -/
def parseParamsLoop : Nat → Parser → List Parameter →
    Except String (List Parameter × Parser)
  | 0, _, _ => .error "parser fuel exhausted"
  | fuel + 1, p, acc => do
    let (paramType, p) ← p.consume .DataType
    let (paramName, p) ← p.consume .Identifier
    let acc := acc ++ [Parameter.mk paramType.lexeme paramName.lexeme]
    if p.check .Comma then
      parseParamsLoop fuel p.adv acc
    else if p.check .RParen then
      .ok (acc, p.adv)
    else
      .error "Expected ',' or ')' in function parameters"

/-- The body loop of parse_function_declaration: parse statements until the
closing brace is seen (not consumed). -/
def parseBodyLoop : Nat → Parser → List Stmt →
    Except String (List Stmt × Parser)
  | 0, _, _ => .error "parser fuel exhausted"
  | fuel + 1, p, acc =>
    if p.check .RBrace then
      .ok (acc, p)
    else do
      let (s, p) ← parseStmt fuel p
      parseBodyLoop fuel p (acc ++ [s])

/-- Parser::parse_expr. -/
def parseExpr : Nat → Parser → Except String (Expr × Parser)
  | 0, _ => .error "parser fuel exhausted"
  | fuel + 1, p => parsePrecedence fuel p 0

/-- Parser::parse_precedence. -/
def parsePrecedence : Nat → Parser → Nat → Except String (Expr × Parser)
  | 0, _, _ => .error "parser fuel exhausted"
  | fuel + 1, p, min => do
    let (left, p) ← parsePrimary fuel p
    parsePrecedenceLoop fuel p left min

/-- The operator loop of Parser::parse_precedence. -/
def parsePrecedenceLoop : Nat → Parser → Expr → Nat →
    Except String (Expr × Parser)
  | 0, _, _, _ => .error "parser fuel exhausted"
  | fuel + 1, p, left, min =>
    match p.binop with
    | none => .ok (left, p)
    | some op =>
      if op.precedence < min then
        .ok (left, p)
      else do
        let p := p.adv
        let right_min := if op.is_left_linked then op.precedence + 1 else op.precedence
        let (right, p) ← parsePrecedence fuel p right_min
        parsePrecedenceLoop fuel p (Expr.BinaryOp left op right) min

/-- Parser::parse_primary. -/
def parsePrimary : Nat → Parser → Except String (Expr × Parser)
  | 0, _ => .error "parser fuel exhausted"
  | fuel + 1, p =>
    match p.current with
    | some token =>
      match token.token_type with
      | .Number => do
        let value ← parseNumericLexeme token.lexeme
        .ok (Expr.Number value, p.adv)
      | .Identifier =>
        let value := token.lexeme
        let p := p.adv
        if p.check .LParen then
          parseFunctionCall fuel p value
        else
          .ok (Expr.Identifier value, p)
      | .String => .ok (Expr.String token.lexeme, p.adv)
      | .LParen => do
        let p := p.adv
        let (e, p) ← parseExpr fuel p
        let (_, p) ← p.consume .RParen
        .ok (e, p)
      | tt => .error ("[twee::error] unexpected token " ++ ttDebug tt)
    | none => .error "[twee::error] unexpected end of input"

/-- Parser::parse_function_call (current token is the opening paren). -/
def parseFunctionCall : Nat → Parser → String → Except String (Expr × Parser)
  | 0, _, _ => .error "parser fuel exhausted"
  | fuel + 1, p, callee =>
    let p := p.adv
    if p.check .RParen then
      .ok (Expr.FunctionCall callee [], p.adv)
    else
      parseCallArgsLoop fuel p callee []

/-- The argument loop of Parser::parse_function_call. -/
def parseCallArgsLoop : Nat → Parser → String → List Expr →
    Except String (Expr × Parser)
  | 0, _, _, _ => .error "parser fuel exhausted"
  | fuel + 1, p, callee, acc => do
    let (e, p) ← parseExpr fuel p
    let acc := acc ++ [e]
    if p.check .Comma then
      parseCallArgsLoop fuel p.adv callee acc
    else if p.check .RParen then do
      let (_, p) ← p.consume .RParen
      .ok (Expr.FunctionCall callee acc, p)
    else
      .error "Expected ',' or ')' in function call arguments list."

/-- The top-level loop of Parser::parse. -/
def parseLoop : Nat → Parser → List Stmt → Except String (List Stmt)
  | 0, _, _ => .error "parser fuel exhausted"
  | fuel + 1, p, acc =>
    if p.check .EOF then
      .ok acc
    else do
      let (s, p) ← parseStmt fuel p
      let p := if p.check .Semi then p.adv else p
      parseLoop fuel p (acc ++ [s])

end

/-- Fuel that dominates the parser call depth for a given token list: the
parser performs a bounded number of nested calls per consumed token. -/
def parserFuel (ts : List Token) : Nat :=
  8 * ts.length + 64

/-- Parser::parse on a token stream. -/
def parseTokens (ts : List Token) : Except String (List Stmt) :=
  parseLoop (parserFuel ts) (Parser.new ts) []

/-- The main.rs pipeline up to the AST: Lexer::new + Parser::new + parse. -/
def parseProgram (source : String) : Except String (List Stmt) :=
  parseTokens (tokenize source)

/-! ## Code generator (src/codegen.rs) -/

/-- Association-list model of HashMap: lookup of the first matching key. -/
def mapGet {α : Type} (m : List (String × α)) (k : String) : Option α :=
  match m with
  | [] => none
  | (k2, v) :: rest => if k2 = k then some v else mapGet rest k

/-- Association-list model of HashMap::insert (overwrites in place). -/
def mapInsert {α : Type} (m : List (String × α)) (k : String) (v : α) :
    List (String × α) :=
  match m with
  | [] => [(k, v)]
  | (k2, v2) :: rest =>
    if k2 = k then (k, v) :: rest else (k2, v2) :: mapInsert rest k v

/-- CodeGen state (the dead isize indent field is omitted, see the module
comment). -/
structure CodeGen where
  output : String
  strings : List (String × Nat)
  variable_offsets : List (String × Nat)
  variable_types : List (String × String)
  string_sect : String
  label_count : Nat
  rbp_offset : Nat
deriving Repr

/-- CodeGen::new. -/
def CodeGen.new : CodeGen :=
  { output := "", strings := [], variable_offsets := [], variable_types := [],
    string_sect := "", label_count := 0, rbp_offset := 0 }

/-- CodeGen::emit. -/
def emit (cg : CodeGen) (code : String) : CodeGen :=
  { cg with output := cg.output ++ code }

/-- CodeGen::emit_line (the indent is always empty, see the module
comment). -/
def emit_line (cg : CodeGen) (code : String) : CodeGen :=
  { cg with output := cg.output ++ code ++ "\n" }

/-- CodeGen::get_type_size: the silent 0 for unknown type strings is kept
faithfully. -/
def getTypeSize (data_type : String) : Nat :=
  match data_type with
  | "int" => 4
  | "char" => 1
  | "char*" => 8
  | _ => 0

/-- CodeGen::get_variable_offset. -/
def getVariableOffset (cg : CodeGen) (variable_name : String) :
    Except String Nat :=
  match mapGet cg.variable_offsets variable_name with
  | some off => .ok off
  | none => .error ("undefined variable: " ++ variable_name)

/-- Rust saturating cast of an (integral) f64 to i32. -/
def i32sat (n : Int) : Int :=
  max (-(2 ^ 31)) (min n (2 ^ 31 - 1))

/-- Rust saturating cast of an (integral) f64 to i64. -/
def i64sat (n : Int) : Int :=
  max (-(2 ^ 63)) (min n (2 ^ 63 - 1))

/-- CodeGen::generate_return_stmt. -/
def genReturnStmt (cg : CodeGen) (value : Expr) : Except String CodeGen :=
  match value with
  | .Number n => .ok (emit_line cg ("    movl $" ++ toString (i32sat n) ++ ", %eax"))
  | .Identifier ident => do
    let offset ← getVariableOffset cg ident
    match mapGet cg.variable_types ident with
    | none => .error ("tried to get data type for variable " ++ ident)
    | some data_type =>
      match data_type with
      | "int" =>
        .ok (emit_line cg ("    movl -" ++ toString offset ++ "(%rbp), %eax"))
      | "char" =>
        .ok (emit_line cg ("    movzbl -" ++ toString offset ++ "(%rbp), %eax"))
      | _ => .error "unable to return this data type"
  | _ => .error "unsupported return expression"

/-- CodeGen::get_escaped_string, character by character.  is_control is the
Unicode Cc class (00..1F and 7F..9F); {:02x} of c as u8 only ever sees
values below 0xA0 here, so two lowercase hex digits suffice. -/
def hexDigit (n : Nat) : String :=
  match n with
  | 0 => "0" | 1 => "1" | 2 => "2" | 3 => "3" | 4 => "4"
  | 5 => "5" | 6 => "6" | 7 => "7" | 8 => "8" | 9 => "9"
  | 10 => "a" | 11 => "b" | 12 => "c" | 13 => "d" | 14 => "e"
  | _ => "f"

def escapeChar (c : Char) : String :=
  match c with
  | '\n' => "\\n"
  | '\t' => "\\t"
  | '\r' => "\\r"
  | '\\' => "\\\\"
  | '"' => "\\\""
  | '\x00' => "\\0"
  | c =>
    if c.toNat < 32 || (127 ≤ c.toNat && c.toNat ≤ 159) then
      "\\x" ++ hexDigit (c.toNat % 256 / 16) ++ hexDigit (c.toNat % 16)
    else
      String.singleton c

def getEscapedString (s : String) : String :=
  s.toList.foldl (fun acc c => acc ++ escapeChar c) ""

/-- CodeGen::generate_string.  The Rust method returns Result but has no
error path (s.parse::<String>() is infallible), so it is modelled as a pure
state transformer. -/
def genString (cg : CodeGen) (s : String) : CodeGen :=
  if (mapGet cg.strings s).isSome then
    cg
  else
    let lc := cg.label_count
    { cg with
      label_count := lc + 1,
      strings := mapInsert cg.strings s lc,
      string_sect := cg.string_sect ++ ".LC" ++ toString lc ++ ":\n" ++
        "    .string \"" ++ getEscapedString s ++ "\"\n" }

/-- Rust str::len of a literal (its UTF-8 byte length). -/
def rustStrLen (s : String) : Nat :=
  s.toList.foldl
    (fun n c =>
      n + (if c.toNat < 128 then 1
           else if c.toNat < 2048 then 2
           else if c.toNat < 65536 then 3
           else 4))
    0

/-- str::as_bytes()[0] for the one-byte literals stored as character
constants (a one-byte string is a single ASCII character). -/
def firstByte (s : String) : Nat :=
  match s.toList with
  | c :: _ => c.toNat
  | [] => 0

/-- The offset bookkeeping at the top of CodeGen::generate_var_decl:
advance by the type size, then round up to the next multiple of 8. -/
def alignedOffset (base size : Nat) : Nat :=
  let off := base + size
  if off % 8 ≠ 0 then off + (8 - off % 8) else off

/-- The six 64-bit argument registers (arg_regs in generate_function_call,
also get_64bit_reg). -/
def regs64 : List String :=
  ["%rdi", "%rsi", "%rdx", "%rcx", "%r8", "%r9"]

/-- The six 32-bit argument registers. -/
def regs32 : List String :=
  ["%edi", "%esi", "%edx", "%ecx", "%r8d", "%r9d"]

/-- The six 8-bit argument registers. -/
def regs8 : List String :=
  ["%dil", "%sil", "%dl", "%cl", "%r8b", "%r9b"]

/-- CodeGen::get_64bit_reg. -/
def get64bitReg (idx : Nat) : Except String String :=
  match regs64.get? idx with
  | some r => .ok r
  | none => .error "too many params for registers"

/-- CodeGen::get_32bit_reg. -/
def get32bitReg (idx : Nat) : Except String String :=
  match regs32.get? idx with
  | some r => .ok r
  | none => .error "too many params for registers"

/-- CodeGen::get_8bit_reg. -/
def get8bitReg (idx : Nat) : Except String String :=
  match regs8.get? idx with
  | some r => .ok r
  | none => .error "too many params for registers"

/-- The per-argument body of the loop in CodeGen::generate_function_call,
for argument positions below six.  Array indexing regs[i] is modelled with
a default that is unreachable for i < 6. -/
def genCallArg (cg : CodeGen) (arg : Expr) (i : Nat) : Except String CodeGen :=
  match arg with
  | .Identifier ident => do
    let offset ← getVariableOffset cg ident
    match mapGet cg.variable_types ident with
    | none => .error ("unknown variable type: " ++ ident)
    | some var_type =>
      match var_type with
      | "int" =>
        .ok (emit_line cg ("    movl -" ++ toString offset ++ "(%rbp), " ++
          (regs32.get? i).getD ""))
      | "char*" =>
        .ok (emit_line cg ("    movq -" ++ toString offset ++ "(%rbp), " ++
          (regs64.get? i).getD ""))
      | "char" =>
        .ok (emit_line cg ("    movzbl -" ++ toString offset ++ "(%rbp), " ++
          (regs32.get? i).getD ""))
      | _ => .error ("Unsupported variable type: " ++ var_type)
  | .String st =>
    let cg := genString cg st
    let label := (mapGet cg.strings st).getD 0
    .ok (emit_line cg ("    leaq .LC" ++ toString label ++ "(%rip), " ++
      (regs64.get? i).getD ""))
  | .Number n =>
    .ok (emit_line cg ("    movq $" ++ toString (i64sat n) ++ ", " ++
      (regs64.get? i).getD ""))
  | _ => .error "unsupported arg type"

/-- The argument loop of CodeGen::generate_function_call: positions six and
beyond are silently skipped (the commented-out stack-argument path). -/
def genCallArgsLoop (cg : CodeGen) : List Expr → Nat → Except String CodeGen
  | [], _ => .ok cg
  | arg :: rest, i =>
    if i < 6 then do
      let cg ← genCallArg cg arg i
      genCallArgsLoop cg rest (i + 1)
    else
      genCallArgsLoop cg rest (i + 1)

/-- CodeGen::generate_function_call. -/
def genFunctionCall (cg : CodeGen) (callee : String) (args : List Expr) :
    Except String CodeGen := do
  let cg ← genCallArgsLoop cg args 0
  let cg := if callee = "printf" then emit_line cg "    movl $0, %eax" else cg
  .ok (emit_line cg ("    call " ++ callee))

/-- CodeGen::generate_var_decl. -/
def genVarDecl (cg : CodeGen) (data_type name : String) (value : Expr) :
    Except String CodeGen :=
  let off := alignedOffset cg.rbp_offset (getTypeSize data_type)
  let cg := { cg with
    rbp_offset := off,
    variable_offsets := mapInsert cg.variable_offsets name off,
    variable_types := mapInsert cg.variable_types name data_type }
  match value with
  | .Number n =>
    .ok (emit cg ("    movl $" ++ toString n ++ ", -" ++ toString off ++ "(%rbp)\n"))
  | .String str =>
    if rustStrLen str = 1 then
      .ok (emit cg ("    movl $" ++ toString (firstByte str) ++ ", -" ++
        toString off ++ "(%rbp)\n"))
    else
      let cg := genString cg str
      let label := (mapGet cg.strings str).getD 0
      let cg := emit cg ("    leaq .LC" ++ toString label ++ "(%rip), %rax\n")
      .ok (emit cg ("    movq %rax, -" ++ toString off ++ "(%rbp)\n"))
  | .FunctionCall callee args => do
    let cg ← genFunctionCall cg callee args
    match data_type with
    | "int" => .ok (emit_line cg ("    movl %eax, -" ++ toString off ++ "(%rbp)"))
    | "char" => .ok (emit_line cg ("    movb %al, -" ++ toString off ++ "(%rbp)"))
    | _ => .error ("unable to store return value for type: " ++ data_type)
  | _ => .ok cg

/-- CodeGen::generate_expr_stmt. -/
def genExprStmt (cg : CodeGen) (e : Expr) : Except String CodeGen :=
  match e with
  | .FunctionCall callee args => genFunctionCall cg callee args
  | _ => .ok cg

/-- CodeGen::save_param_to_stk. -/
def saveParamToStk (cg : CodeGen) (param : Parameter) (reg_idx : Nat) :
    Except String CodeGen :=
  match mapGet cg.variable_offsets param.name with
  | none =>
    .error ("failed to find an offset for parameter '" ++ param.name ++ "'")
  | some offset => do
    let (reg, inst) ←
      (match param.data_type with
      | "char*" => do
        let r ← get64bitReg reg_idx
        Except.ok (r, "movq")
      | "int" => do
        let r ← get32bitReg reg_idx
        Except.ok (r, "movl")
      | "char" => do
        let r ← get8bitReg reg_idx
        Except.ok (r, "movb")
      | _ =>
        Except.error ("unknown data type tried in save_param_to_stk. data type: " ++
          param.data_type))
    .ok (emit_line cg ("    " ++ inst ++ " " ++ reg ++ ", -" ++
      toString offset ++ "(%rbp)"))

/-- The parameter-offset loop at the top of CodeGen::generate_fn_decl. -/
def assignParamOffsets (cg : CodeGen) : List Parameter → CodeGen
  | [] => cg
  | param :: rest =>
    let size := getTypeSize param.data_type
    let off := cg.rbp_offset + size
    assignParamOffsets
      { cg with rbp_offset := off,
                variable_offsets := mapInsert cg.variable_offsets param.name off }
      rest

/-- The parameter-spill loop of CodeGen::generate_fn_decl: the seventh
parameter position fails with the stack-parameter error. -/
def spillParams (cg : CodeGen) : List Parameter → Nat → Except String CodeGen
  | [], _ => .ok cg
  | param :: rest, i =>
    if i < 6 then do
      let cg ← saveParamToStk cg param i
      spillParams cg rest (i + 1)
    else
      .error "tried to do stack parameters, not implemented"

/-- The frame-setup part of CodeGen::generate_fn_decl: reset the offset
counter, lay out the parameters, emit the entry label and frame setup, and
reserve (16-byte rounded) stack space exactly when the offset counter is
positive at this point - i.e. exactly when there are parameter slots; body
locals are allocated only later, while lowering the body. -/
def prologue (cg : CodeGen) (name : String) (params : List Parameter) : CodeGen :=
  let cg := assignParamOffsets { cg with rbp_offset := 0 } params
  let cg := emit cg (name ++ ":\n")
  let cg := emit_line cg "    pushq %rbp"
  let cg := emit_line cg "    movq %rsp, %rbp"
  if cg.rbp_offset > 0 then
    emit_line cg ("    subq $" ++ toString ((cg.rbp_offset + 15) / 16 * 16) ++
      ", %rsp")
  else
    cg

mutual

/-- CodeGen::generate_stmt.  The fuel is decremented on every mutual call;
entry points pass sizeOf of the argument, which dominates the number of
nested calls, so the fuel branch is unreachable (genStmts below). -/
def genStmtF : Nat → CodeGen → Stmt → Except String CodeGen
  | 0, _, _ => .error "codegen fuel exhausted"
  | fuel + 1, cg, stmt =>
    match stmt with
    | .VariableDecl data_type name value => genVarDecl cg data_type name value
    | .Expression e => genExprStmt cg e
    | .Return value => genReturnStmt cg value
    | .FunctionDecl _ name body params => do
      let cg := prologue cg name params
      let cg ← spillParams cg params 0
      let cg ← genStmtListF fuel cg body
      let cg := emit_line cg "    leave"
      .ok (emit_line cg "    ret")

/-- The statement loops of CodeGen::generate and generate_fn_decl. -/
def genStmtListF : Nat → CodeGen → List Stmt → Except String CodeGen
  | 0, _, _ => .error "codegen fuel exhausted"
  | _fuel + 1, cg, [] => .ok cg
  | fuel + 1, cg, stmt :: rest => do
    let cg ← genStmtF fuel cg stmt
    genStmtListF fuel cg rest

end

/-- CodeGen::generate: lower all statements into a fresh output buffer,
then assemble read-only-data section (if any), text-section header and the
generated code.  The fuel argument makes the recursion through function
bodies structural; any fuel exceeding the nesting size of stmts yields the
Rust behaviour (the fuel branch of genStmtF is then unreachable). -/
def generate (fuel : Nat) (cg : CodeGen) (stmts : List Stmt) :
    Except String String := do
  let cg1 ← genStmtListF fuel { cg with output := "" } stmts
  let code_sect := cg1.output
  let cg2 := { cg1 with output := cg.output }
  let cg3 :=
    if cg2.string_sect ≠ "" then
      emit (emit_line cg2 ".section .rodata") cg2.string_sect
    else
      cg2
  let cg4 := emit_line cg3 ".section .text"
  let cg5 := emit_line cg4 "    .globl main"
  let cg6 := emit_line cg5 "    .type main, @function"
  .ok (emit cg6 code_sect).output

/-- The main.rs pipeline: lex, parse, generate with a fresh CodeGen.  The
codegen fuel 8 * length + 64 dominates the nesting size of any AST the
parser can produce from the source (the AST has fewer nodes than the
source has characters). -/
def compileSource (source : String) : Except String String := do
  let program ← parseProgram source
  generate (8 * source.length + 64) CodeGen.new program

/-! ## Auxiliary definitions used by the theorems -/

/-- Does the character list p occur at the start of s? -/
def charsHavePref (p s : List Char) : Bool :=
  match p, s with
  | [], _ => true
  | _ :: _, [] => false
  | c :: cs, d :: ds => c = d && charsHavePref cs ds

/-- Does the character list p occur contiguously anywhere in s? -/
def charsContain (p s : List Char) : Bool :=
  match s with
  | [] => charsHavePref p []
  | _ :: rest => charsHavePref p s || charsContain p rest

/-- Substring test on strings (used to state what an assembly text does and
does not contain). -/
def strContains (s pat : String) : Bool :=
  charsContain pat.toList s.toList

/-- An identifier token as the lexer would hand it to the parser (the
parser never inspects line/column). -/
def identTok (s : String) : Token :=
  { token_type := .Identifier, lexeme := s, line := 1, column := 1 }

/-- The operator token corresponding to a Binop. -/
def binopTok : Binop → Token
  | .Add => { token_type := .Add, lexeme := "+", line := 1, column := 1 }
  | .Sub => { token_type := .Sub, lexeme := "-", line := 1, column := 1 }
  | .Mul => { token_type := .Mul, lexeme := "*", line := 1, column := 1 }
  | .Div => { token_type := .Div, lexeme := "/", line := 1, column := 1 }

def eofTok : Token :=
  { token_type := .EOF, lexeme := "", line := 1, column := 1 }

/-- Parser::parse_expr run on a token stream, keeping only the tree. -/
def parseExprTokens (ts : List Token) : Except String Expr :=
  (parseExpr (parserFuel ts) (Parser.new ts)).map Prod.fst

/-- Total size of the parameter slots laid out by assignParamOffsets. -/
def sumParamSizes : List Parameter → Nat
  | [] => 0
  | p :: rest => getTypeSize p.data_type + sumParamSizes rest

/-- The AST of spec scenario 1, int main() with a local int x = 5 returned
(as generate_fn_decl receives it). -/
def scenario1AST : List Stmt :=
  [Stmt.FunctionDecl "int" "main"
    [Stmt.VariableDecl "int" "x" (Expr.Number 5),
     Stmt.Return (Expr.Identifier "x")]
    []]

/-- The assembly text the code generator produces for scenario1AST. -/
def scenario1Asm : String :=
  ".section .text\n    .globl main\n    .type main, @function\nmain:\n    pushq %rbp\n    movq %rsp, %rbp\n    movl $5, -8(%rbp)\n    movl -8(%rbp), %eax\n    leave\n    ret\n"

/-- A two-function program: f declares a local x, g returns x. -/
def crossFunctionAST : List Stmt :=
  [Stmt.FunctionDecl "int" "f"
    [Stmt.VariableDecl "int" "x" (Expr.Number 5)] [],
   Stmt.FunctionDecl "int" "g"
    [Stmt.Return (Expr.Identifier "x")] []]

/-- The assembly text the code generator produces for crossFunctionAST:
g resolves x to the slot laid out inside f. -/
def crossFunctionAsm : String :=
  ".section .text\n    .globl main\n    .type main, @function\nf:\n    pushq %rbp\n    movq %rsp, %rbp\n    movl $5, -8(%rbp)\n    leave\n    ret\ng:\n    pushq %rbp\n    movq %rsp, %rbp\n    movl -8(%rbp), %eax\n    leave\n    ret\n"

/-- A list of seven int parameters. -/
def sevenParams : List Parameter :=
  [Parameter.mk "int" "p1", Parameter.mk "int" "p2", Parameter.mk "int" "p3",
   Parameter.mk "int" "p4", Parameter.mk "int" "p5", Parameter.mk "int" "p6",
   Parameter.mk "int" "p7"]

/-! ## Claim theorems -/

set_option maxRecDepth 100000 in
/-- C1: the claim says the lexer produces a Return-kind token for the
keyword return and the parser dispatches on it to build a Return statement.
The code does neither: no keyword maps to a Return token (the TokenType
enum of lexer.rs does not even declare the variant the parser matches on),
so the word return lexes as a plain Identifier and a source-level return
statement parses as two expression statements.  The last conjunct shows
that the dispatch arm itself is implemented as the claim describes: fed a
hypothetical Return-kind token stream, the parser does build a Return
statement - the lexer simply never produces that token. -/
theorem c1_return_lexes_as_identifier :
    keywordLookup "return" = TokenType.Identifier ∧
    (tokenize "return 5").map Token.token_type =
      [TokenType.Identifier, TokenType.Number, TokenType.EOF] ∧
    (tokenize "return 5").map Token.lexeme = ["return", "5", ""] ∧
    parseProgram "return 5" =
      .ok [Stmt.Expression (Expr.Identifier "return"),
           Stmt.Expression (Expr.Number 5)] ∧
    parseTokens
      [Token.mk TokenType.Return "return" 1 1,
       Token.mk TokenType.Number "5" 1 8, eofTok] =
      .ok [Stmt.Return (Expr.Number 5)] := by
  refine ⟨rfl, ?_, ?_, ?_, ?_⟩ <;> rfl

set_option maxRecDepth 100000 in
/-- C2: the claim says an unknown character or an unterminated string
literal makes compilation fail with the lexical error.  next_token does
produce these errors, but the next wrapper maps them to None, which the
parser treats as end of input: on both failing inputs the whole pipeline
succeeds, returning an empty program and the bare section header. -/
theorem c2_lexical_errors_are_swallowed :
    lexNextToken (Lexer.new "@") =
      .error "[twee::error] unknown character '@'" ∧
    (lexNext (Lexer.new "@")).fst = none ∧
    parseProgram "@" = .ok [] ∧
    compileSource "@" =
      .ok ".section .text\n    .globl main\n    .type main, @function\n" ∧
    lexNextToken (Lexer.new "\"abc") = .error "Unterminated string literal" ∧
    parseProgram "\"abc" = .ok [] ∧
    compileSource "\"abc" =
      .ok ".section .text\n    .globl main\n    .type main, @function\n" := by
  refine ⟨?_, ?_, ?_, ?_, ?_, ?_, ?_⟩ <;> rfl

set_option maxRecDepth 100000 in
/-- C4: the claim says returning an identifier that names a function
parameter emits a type-selected load just as for a local variable.  It
does not: generate_fn_decl records parameter offsets but never parameter
types, so lowering return a inside int f(int a) fails with the
missing-data-type error instead of emitting a load. -/
theorem c4_returning_a_parameter_fails :
    generate 100 CodeGen.new
      [Stmt.FunctionDecl "int" "f"
        [Stmt.Return (Expr.Identifier "a")]
        [Parameter.mk "int" "a"]] =
      .error "tried to get data type for variable a" := by
  rfl

set_option maxRecDepth 100000 in
/-- C5: the claim says the offset/type mappings are rebuilt per function so
that a name declared only in an earlier function is reported as undefined.
Only the offset counter is reset: compiling f (local int x at offset 8)
followed by g (whose body returns x) succeeds, and g loads x from the
stale offset of f instead of failing with an undefined-variable error. -/
theorem c5_stale_mappings_across_functions :
    generate 100 CodeGen.new crossFunctionAST = .ok crossFunctionAsm ∧
    strContains crossFunctionAsm "undefined variable" = false ∧
    strContains crossFunctionAsm "g:\n    pushq %rbp\n    movq %rsp, %rbp\n    movl -8(%rbp), %eax" = true := by
  refine ⟨?_, ?_, ?_⟩ <;> rfl

/-! ## Helper lemmas about the map and parameter-layout primitives -/

theorem mapGet_mapInsert_self {α : Type} (m : List (String × α)) (k : String)
    (v : α) : mapGet (mapInsert m k v) k = some v := by
  induction m with
  | nil => simp [mapInsert, mapGet]
  | cons hd tl ih =>
    obtain ⟨k2, v2⟩ := hd
    by_cases h : k2 = k <;> simp [mapInsert, mapGet, h, ih]

theorem mapGet_mapInsert_isSome {α : Type} (m : List (String × α))
    (k j : String) (v : α) (h : (mapGet m k).isSome) :
    (mapGet (mapInsert m j v) k).isSome := by
  induction m with
  | nil => simp [mapGet] at h
  | cons hd tl ih =>
    obtain ⟨a, b⟩ := hd
    simp only [mapGet] at h
    by_cases hk : a = k
    · subst hk
      by_cases hj : a = j
      · subst hj
        simp [mapInsert, mapGet]
      · simp [mapInsert, mapGet, hj]
    · simp only [if_neg hk] at h
      by_cases hj : a = j
      · subst hj
        simpa [mapInsert, mapGet, hk] using h
      · simpa [mapInsert, mapGet, hj, hk] using ih h

theorem assignParamOffsets_rbp (ps : List Parameter) :
    ∀ cg : CodeGen, (assignParamOffsets cg ps).rbp_offset =
      cg.rbp_offset + sumParamSizes ps := by
  induction ps with
  | nil => intro cg; simp [assignParamOffsets, sumParamSizes]
  | cons p rest ih =>
    intro cg
    simp only [assignParamOffsets, sumParamSizes]
    rw [ih]
    simp
    omega

theorem assignParamOffsets_output (ps : List Parameter) :
    ∀ cg : CodeGen, (assignParamOffsets cg ps).output = cg.output := by
  induction ps with
  | nil => intro cg; simp [assignParamOffsets]
  | cons p rest ih =>
    intro cg
    simp only [assignParamOffsets]
    rw [ih]

theorem assignParamOffsets_preserves_isSome (ps : List Parameter) :
    ∀ (cg : CodeGen) (k : String),
      (mapGet cg.variable_offsets k).isSome →
      (mapGet (assignParamOffsets cg ps).variable_offsets k).isSome := by
  induction ps with
  | nil => intro cg k h; simpa [assignParamOffsets] using h
  | cons p rest ih =>
    intro cg k h
    simp only [assignParamOffsets]
    exact ih _ k (mapGet_mapInsert_isSome _ k p.name _ h)

theorem assignParamOffsets_param_isSome (ps : List Parameter) :
    ∀ (cg : CodeGen) (p : Parameter), p ∈ ps →
      (mapGet (assignParamOffsets cg ps).variable_offsets p.name).isSome := by
  induction ps with
  | nil => intro cg p h; cases h
  | cons q rest ih =>
    intro cg p h
    rcases List.mem_cons.mp h with h1 | h2
    · subst h1
      simp only [assignParamOffsets]
      apply assignParamOffsets_preserves_isSome
      simp [mapGet_mapInsert_self]
    · simp only [assignParamOffsets]
      exact ih _ p h2

theorem sumParamSizes_pos (ps : List Parameter) (hne : ps ≠ [])
    (hvalid : ∀ p ∈ ps, p.data_type = "int" ∨ p.data_type = "char" ∨
      p.data_type = "char*") : 0 < sumParamSizes ps := by
  cases ps with
  | nil => exact absurd rfl hne
  | cons p rest =>
    have hp := hvalid p (List.mem_cons_self p rest)
    have : 0 < getTypeSize p.data_type := by
      rcases hp with h | h | h <;> simp [getTypeSize, h]
    simp only [sumParamSizes]
    omega

set_option maxRecDepth 100000 in
/-- C3 counterexample: scenario 1 is a compiled function in which a stack
slot IS allocated (the local x, 4 bytes rounded to offset 8, visible in the
two -8(%rbp) operands), yet the emitted prologue reserves NO stack space:
the output contains no subq at all, refuting the claim that the prologue
covers slots of body-local variables. -/
theorem c3_counterexample :
    generate 100 CodeGen.new scenario1AST = .ok scenario1Asm ∧
    strContains scenario1Asm "subq" = false ∧
    strContains scenario1Asm "movl $5, -8(%rbp)" = true ∧
    strContains scenario1Asm "movl -8(%rbp), %eax" = true := by
  refine ⟨?_, ?_, ?_, ?_⟩ <;> rfl

set_option maxRecDepth 100000 in
/-- C3 amended: the prologue reserves 16-byte-rounded stack space covering
exactly the slots already allocated when it is emitted - the parameter
slots; for any function with at least one (known-typed) parameter the
frame setup ends in the subq over the rounded parameter-slot total.  Slots
of body-local variables are allocated only later, while lowering the body,
and are not covered (second part: scenario 1 allocates its 4-byte
rounded-to-8 local slot, stores immediate 5 into it, and its prologue has
no stack reservation). -/
theorem c3_prologue_covers_exactly_parameter_slots :
    (∀ (cg : CodeGen) (nm : String) (params : List Parameter),
      params ≠ [] →
      (∀ p ∈ params, p.data_type = "int" ∨ p.data_type = "char" ∨
        p.data_type = "char*") →
      (prologue cg nm params).output =
        cg.output ++ (nm ++ ":\n") ++ "    pushq %rbp" ++ "\n" ++
          "    movq %rsp, %rbp" ++ "\n" ++
          ("    subq $" ++ toString ((sumParamSizes params + 15) / 16 * 16) ++
            ", %rsp") ++ "\n") ∧
    generate 100 CodeGen.new scenario1AST = .ok scenario1Asm := by
  constructor
  · intro cg nm params hne hvalid
    have hpos : 0 < sumParamSizes params := sumParamSizes_pos params hne hvalid
    have hrbp : (assignParamOffsets { cg with rbp_offset := 0 } params).rbp_offset =
        sumParamSizes params := by
      rw [assignParamOffsets_rbp]
      simp
    have hout : (assignParamOffsets { cg with rbp_offset := 0 } params).output =
        cg.output := by
      rw [assignParamOffsets_output]
    simp only [prologue, emit, emit_line, hrbp, hout]
    rw [if_pos hpos]
  · rfl

set_option maxRecDepth 100000 in
/-- C6 counterexample: a variable declaration with the unknown type float
and a Number initializer does NOT fail code generation - the unknown type
silently gets size 0 (offset bookkeeping rounds 0 to 0) and generation
succeeds, storing into -0(%rbp); this refutes failing regardless of the
initializer form. -/
theorem c6_counterexample :
    generate 100 CodeGen.new [Stmt.VariableDecl "float" "y" (Expr.Number 5)] =
      .ok ".section .text\n    .globl main\n    .type main, @function\n    movl $5, -0(%rbp)\n" := by
  rfl

/-- C6 amended: an unknown declared type fails code generation only when
the initializer is a FunctionCall (the store of the call result dispatches
on the declared type and rejects anything outside int/char); with a Number
or a String initializer lowering succeeds for every type string, the
unknown type being given size 0. -/
theorem c6_unknown_type_fails_only_for_call_initializers :
    (∀ (cg : CodeGen) (dt nm : String) (n : Int),
      ∃ cg2, genVarDecl cg dt nm (Expr.Number n) = .ok cg2) ∧
    (∀ (cg : CodeGen) (dt nm s : String),
      ∃ cg2, genVarDecl cg dt nm (Expr.String s) = .ok cg2) ∧
    (∀ (cg : CodeGen) (dt nm callee : String),
      dt ≠ "int" → dt ≠ "char" →
      genVarDecl cg dt nm (Expr.FunctionCall callee []) =
        .error ("unable to store return value for type: " ++ dt)) := by
  refine ⟨?_, ?_, ?_⟩
  · intro cg dt nm n
    exact ⟨_, rfl⟩
  · intro cg dt nm s
    by_cases h : rustStrLen s = 1 <;> simp [genVarDecl, h]
  · intro cg dt nm callee h1 h2
    simp only [genVarDecl, genFunctionCall, genCallArgsLoop]
    by_cases hp : callee = "printf" <;> simp [hp, bind, Except.bind, h1, h2]

set_option maxRecDepth 100000 in
/-- C7 counterexample: lowering int x = y (an identifier initializer)
inside a function reports success and emits no instruction at all for the
initializer - the output contains no store into the allocated slot (no
movl, no -8(%rbp)); this refutes the claim that this case is not a silent
success. -/
theorem c7_counterexample :
    generate 100 CodeGen.new
      [Stmt.FunctionDecl "int" "main"
        [Stmt.VariableDecl "int" "x" (Expr.Identifier "y")] []] =
      .ok ".section .text\n    .globl main\n    .type main, @function\nmain:\n    pushq %rbp\n    movq %rsp, %rbp\n    leave\n    ret\n" ∧
    strContains ".section .text\n    .globl main\n    .type main, @function\nmain:\n    pushq %rbp\n    movq %rsp, %rbp\n    leave\n    ret\n" "movl" = false ∧
    strContains ".section .text\n    .globl main\n    .type main, @function\nmain:\n    pushq %rbp\n    movq %rsp, %rbp\n    leave\n    ret\n" "-8(%rbp)" = false := by
  refine ⟨?_, ?_, ?_⟩ <;> rfl

/-- C7 amended: lowering a VariableDecl whose initializer is an identifier
reference or a binary operation performs the slot bookkeeping (offset
advance and the two map inserts) but emits no instructions and reports
success - behaviourally it IS a silent success; only the characterisation
as an error path fails, the no-lowering half of the claim holds. -/
theorem c7_identifier_or_binop_initializer_is_silent_success :
    (∀ (cg : CodeGen) (dt nm ident : String),
      genVarDecl cg dt nm (Expr.Identifier ident) =
        .ok { cg with
          rbp_offset := alignedOffset cg.rbp_offset (getTypeSize dt),
          variable_offsets :=
            mapInsert cg.variable_offsets nm
              (alignedOffset cg.rbp_offset (getTypeSize dt)),
          variable_types := mapInsert cg.variable_types nm dt }) ∧
    (∀ (cg : CodeGen) (dt nm : String) (l : Expr) (op : Binop) (r : Expr),
      genVarDecl cg dt nm (Expr.BinaryOp l op r) =
        .ok { cg with
          rbp_offset := alignedOffset cg.rbp_offset (getTypeSize dt),
          variable_offsets :=
            mapInsert cg.variable_offsets nm
              (alignedOffset cg.rbp_offset (getTypeSize dt)),
          variable_types := mapInsert cg.variable_types nm dt }) := by
  constructor
  · intro cg dt nm ident
    rfl
  · intro cg dt nm l op r
    rfl

/-- C8: for any two operators of equal precedence the parser builds the
left-deep tree (a op1 b) op2 c, and for any Add/Sub operator followed by a
Mul/Div operator it builds a opLo (b opHi c) - multiplication-class
operators bind tighter.  Stated over the token stream the lexer delivers
for identifiers a, b, c with the operators in between. -/
theorem c8_left_associativity_and_precedence :
    (∀ (a b c : String) (op1 op2 : Binop), op1.precedence = op2.precedence →
      parseExprTokens
        [identTok a, binopTok op1, identTok b, binopTok op2, identTok c, eofTok] =
        .ok (Expr.BinaryOp
          (Expr.BinaryOp (Expr.Identifier a) op1 (Expr.Identifier b))
          op2 (Expr.Identifier c))) ∧
    (∀ (a b c : String) (opLo opHi : Binop),
      opLo.precedence = 1 → opHi.precedence = 2 →
      parseExprTokens
        [identTok a, binopTok opLo, identTok b, binopTok opHi, identTok c, eofTok] =
        .ok (Expr.BinaryOp (Expr.Identifier a) opLo
          (Expr.BinaryOp (Expr.Identifier b) opHi (Expr.Identifier c)))) := by
  constructor
  · intro a b c op1 op2 h
    cases op1 <;> cases op2 <;>
      first
        | rfl
        | (exfalso; simp [Binop.precedence] at h)
  · intro a b c opLo opHi hLo hHi
    cases opLo <;> cases opHi <;>
      first
        | rfl
        | (exfalso; simp [Binop.precedence] at hLo hHi)

/-- C8 witness: the theorem applied to the streams for a - b - c and for
a + b * c. -/
theorem c8_witness :
    parseExprTokens
      [identTok "a", binopTok .Sub, identTok "b", binopTok .Sub, identTok "c", eofTok] =
      .ok (Expr.BinaryOp
        (Expr.BinaryOp (Expr.Identifier "a") .Sub (Expr.Identifier "b"))
        .Sub (Expr.Identifier "c")) ∧
    parseExprTokens
      [identTok "a", binopTok .Add, identTok "b", binopTok .Mul, identTok "c", eofTok] =
      .ok (Expr.BinaryOp (Expr.Identifier "a") .Add
        (Expr.BinaryOp (Expr.Identifier "b") .Mul (Expr.Identifier "c"))) :=
  ⟨c8_left_associativity_and_precedence.1 "a" "b" "c" .Sub .Sub rfl,
   c8_left_associativity_and_precedence.2 "a" "b" "c" .Add .Mul rfl rfl⟩

theorem spillParams_isErr_of_seven (ps : List Parameter) :
    ∀ (i : Nat) (cg : CodeGen), i ≤ 6 → 6 < i + ps.length →
      ∃ e, spillParams cg ps i = .error e := by
  induction ps with
  | nil =>
    intro i cg h1 h2
    simp at h2
    omega
  | cons p rest ih =>
    intro i cg h1 h2
    by_cases h : i < 6
    · simp only [spillParams, if_pos h]
      cases hs : saveParamToStk cg p i with
      | error e => exact ⟨e, by simp [bind, Except.bind]⟩
      | ok cg2 =>
        obtain ⟨e, he⟩ := ih (i + 1) cg2 (by omega) (by simp at h2 ⊢; omega)
        exact ⟨e, by simp [bind, Except.bind, he]⟩
    · simp only [spillParams, if_neg h]
      exact ⟨_, rfl⟩

theorem saveParamToStk_ok (cg : CodeGen) (p : Parameter) (i : Nat)
    (hi : i < 6)
    (hty : p.data_type = "int" ∨ p.data_type = "char" ∨ p.data_type = "char*")
    (hoff : (mapGet cg.variable_offsets p.name).isSome) :
    ∃ s, saveParamToStk cg p i = .ok (emit_line cg s) := by
  cases ho : mapGet cg.variable_offsets p.name with
  | none => rw [ho] at hoff; cases hoff
  | some off =>
    rcases hty with h | h | h <;>
      simp only [saveParamToStk, ho, h] <;>
      interval_cases i <;>
      exact ⟨_, by
        simp [get32bitReg, get64bitReg, get8bitReg, regs32, regs64,
          regs8, bind, Except.bind]
        rfl⟩

theorem spillParams_stack_error (ps : List Parameter) :
    ∀ (i : Nat) (cg : CodeGen), i ≤ 6 → 6 < i + ps.length →
      (∀ p ∈ ps, p.data_type = "int" ∨ p.data_type = "char" ∨
        p.data_type = "char*") →
      (∀ p ∈ ps, (mapGet cg.variable_offsets p.name).isSome) →
      spillParams cg ps i = .error "tried to do stack parameters, not implemented" := by
  induction ps with
  | nil =>
    intro i cg h1 h2
    simp at h2
    omega
  | cons p rest ih =>
    intro i cg h1 h2 hty hoff
    by_cases h : i < 6
    · obtain ⟨s, hs⟩ :=
        saveParamToStk_ok cg p i h (hty p (List.mem_cons_self p rest))
          (hoff p (List.mem_cons_self p rest))
      simp only [spillParams, if_pos h, hs, bind, Except.bind]
      exact ih (i + 1) (emit_line cg s) (by omega) (by simp at h2 ⊢; omega)
        (fun q hq => hty q (List.mem_cons_of_mem p hq))
        (fun q hq => hoff q (List.mem_cons_of_mem p hq))
    · simp only [spillParams, if_neg h]

theorem prologue_variable_offsets (cg : CodeGen) (nm : String)
    (ps : List Parameter) :
    (prologue cg nm ps).variable_offsets =
      (assignParamOffsets { cg with rbp_offset := 0 } ps).variable_offsets := by
  simp only [prologue, emit, emit_line]
  split <;> rfl

/-- C9: a function declaration with seven or more parameters always fails
code generation (first part), and when the parameter types are the known
ones the failure is exactly the register-exhaustion error of the spill
loop - the parameter list is never silently truncated.  Stated for every
fuel, every generator state and every body. -/
theorem c9_seven_or_more_params_fail :
    ∀ (fuel : Nat) (cg : CodeGen) (dt nm : String) (body : List Stmt)
      (ps : List Parameter), 7 ≤ ps.length →
      (∃ e, genStmtF (fuel + 1) cg (Stmt.FunctionDecl dt nm body ps) = .error e) ∧
      ((∀ p ∈ ps, p.data_type = "int" ∨ p.data_type = "char" ∨
          p.data_type = "char*") →
        genStmtF (fuel + 1) cg (Stmt.FunctionDecl dt nm body ps) =
          .error "tried to do stack parameters, not implemented") := by
  intro fuel cg dt nm body ps hlen
  constructor
  · obtain ⟨e, he⟩ :=
      spillParams_isErr_of_seven ps 0 (prologue cg nm ps) (by omega) (by omega)
    exact ⟨e, by simp [genStmtF, he, bind, Except.bind]⟩
  · intro hty
    have hoff : ∀ p ∈ ps,
        (mapGet (prologue cg nm ps).variable_offsets p.name).isSome := by
      intro p hp
      rw [prologue_variable_offsets]
      exact assignParamOffsets_param_isSome ps _ p hp
    have hspill :=
      spillParams_stack_error ps 0 (prologue cg nm ps) (by omega) (by omega)
        hty hoff
    simp [genStmtF, hspill, bind, Except.bind]

/-- C9 witness: the theorem applied to a seven-int-parameter function. -/
theorem c9_witness :
    genStmtF 1 CodeGen.new (Stmt.FunctionDecl "int" "f" [] sevenParams) =
      .error "tried to do stack parameters, not implemented" :=
  (c9_seven_or_more_params_fail 0 CodeGen.new "int" "f" [] sevenParams
    (by decide)).2 (by decide)

/-- C10: string-literal interning deduplicates by exact textual content.
Interning a literal already present in the pool leaves the generator state
completely unchanged (same label on lookup, no second read-only-data
entry, counter untouched); interning a new literal stores it under the
current counter value, appends exactly one read-only-data entry, and
increments the counter by one. -/
theorem c10_string_pool_dedupes :
    (∀ (cg : CodeGen) (s : String) (l : Nat),
      mapGet cg.strings s = some l →
      genString cg s = cg ∧ mapGet (genString cg s).strings s = some l) ∧
    (∀ (cg : CodeGen) (s : String),
      mapGet cg.strings s = none →
      genString cg s =
        { cg with
          label_count := cg.label_count + 1,
          strings := mapInsert cg.strings s cg.label_count,
          string_sect := cg.string_sect ++ ".LC" ++ toString cg.label_count ++
            ":\n" ++ "    .string \"" ++ getEscapedString s ++ "\"\n" } ∧
      mapGet (genString cg s).strings s = some cg.label_count) := by
  constructor
  · intro cg s l h
    constructor
    · simp [genString, h]
    · simp [genString, h]
  · intro cg s h
    constructor
    · simp [genString, h]
    · simp [genString, h, mapGet_mapInsert_self]

/-- C10 witness: the theorem applied to a pool already holding hi under
label 0 (interning hi again changes nothing) and to an empty pool
(interning hi the first time uses label 0 and bumps the counter). -/
theorem c10_witness :
    (genString { CodeGen.new with strings := [("hi", 0)], label_count := 1 } "hi" =
        { CodeGen.new with strings := [("hi", 0)], label_count := 1 } ∧
      mapGet (genString { CodeGen.new with strings := [("hi", 0)], label_count := 1 } "hi").strings "hi" =
        some 0) ∧
    (genString CodeGen.new "hi" =
        { CodeGen.new with
          label_count := 1,
          strings := mapInsert CodeGen.new.strings "hi" 0,
          string_sect := CodeGen.new.string_sect ++ ".LC" ++ toString CodeGen.new.label_count ++
            ":\n" ++ "    .string \"" ++ getEscapedString "hi" ++ "\"\n" } ∧
      mapGet (genString CodeGen.new "hi").strings "hi" = some 0) :=
  ⟨c10_string_pool_dedupes.1 _ "hi" 0 rfl, c10_string_pool_dedupes.2 CodeGen.new "hi" rfl⟩

/-- C3 witness: the amended theorem applied to a one-int-parameter
function f (4 parameter bytes round to a 16-byte reservation) and to
scenario 1. -/
theorem c3_witness :
    (prologue CodeGen.new "f" [Parameter.mk "int" "p"]).output =
      CodeGen.new.output ++ ("f" ++ ":\n") ++ "    pushq %rbp" ++ "\n" ++
        "    movq %rsp, %rbp" ++ "\n" ++
        ("    subq $" ++
          toString ((sumParamSizes [Parameter.mk "int" "p"] + 15) / 16 * 16) ++
          ", %rsp") ++ "\n" ∧
    generate 100 CodeGen.new scenario1AST = .ok scenario1Asm :=
  ⟨c3_prologue_covers_exactly_parameter_slots.1 CodeGen.new "f"
      [Parameter.mk "int" "p"] (by simp) (by decide),
   c3_prologue_covers_exactly_parameter_slots.2⟩

/-- C6 witness: the amended theorem applied to the unknown type float with
a Number initializer (success) and with a no-argument call initializer
(the store error). -/
theorem c6_witness :
    (∃ cg2, genVarDecl CodeGen.new "float" "y" (Expr.Number 5) = .ok cg2) ∧
    genVarDecl CodeGen.new "float" "y" (Expr.FunctionCall "foo" []) =
      .error ("unable to store return value for type: " ++ "float") :=
  ⟨c6_unknown_type_fails_only_for_call_initializers.1 CodeGen.new "float" "y" 5,
   c6_unknown_type_fails_only_for_call_initializers.2.2 CodeGen.new "float" "y"
     "foo" (by decide) (by decide)⟩
